import Mathlib

/-!
Shallow embedding of the Automatic-Savings contract
(`src/contract.rs`, `src/error.rs`, `src/msg.rs`).

Modelling conventions:
* `u8` values (the savings rate) are `Nat`; theorems carry the bound
  `≤ 255` where the claim ranges over the whole `u8` domain.  The only
  subtraction on the rate, `100 - savings_rate`, happens after the check
  `1 ≤ rate ≤ 100`, so `Nat` subtraction agrees with the `u8` one.
* `Uint128` amounts are `Nat`; the one place the Rust code computes in
  raw `u128` — `saved * u128::from(received_funds.amount)` — is modelled
  with an explicit `% 2 ^ 128` wrap.
* Caller identities are `String`s: the code compares
  `String::from(info.sender) != String::from(MAIN_ADDRESS)`.
* Storage holds the single `State` record; `STATE.load` on an empty
  storage fails with a `Std` (infrastructure) error.  Neither
  `execute_transfer` nor `execute_flush` contains a `STATE.save`, so the
  transition-level wrappers return the input storage unchanged.
* `deps.querier.query_all_balances(&env.contract.address)` is an
  external collaborator; its result is passed to `execute_flush` as the
  explicit `balance` argument.
* `deps.api.addr_validate(MAIN_ADDRESS)` validates the fixed, well-formed
  bech32 constant and therefore succeeds; `instantiate` is total.
-/

/-- `cosmwasm_std::Coin`: a (denomination, `Uint128` amount) pair. -/
structure Coin where
  denom : String
  amount : Nat
  deriving Repr, DecidableEq

/-- `cosmwasm_std::MessageInfo`: authenticated sender plus attached funds. -/
structure MessageInfo where
  sender : String
  funds : List Coin
  deriving Repr, DecidableEq

/-- The hard-coded designated owner address (`MAIN_ADDRESS` in `contract.rs`). -/
def MAIN_ADDRESS : String := "wasm1pze5wsf0dg0fa4ysnttugn0m22ssf3t4a9yz3h"

/-- The singleton configuration record (`State` in `state.rs`; its fields are
visible in `contract.rs`, where `instantiate` constructs it literally). -/
structure State where
  owner : String
  amount_received : List Coin
  savings_rate : Nat
  deriving Repr, DecidableEq

/-- `ContractError` from `error.rs`. -/
inductive ContractError where
  | Std (msg : String)
  | Unauthorized
  | InvalidSavingsRate
  | EmptyBalance
  | EmptyTransfer
  deriving Repr, DecidableEq

/-- The only ledger message the contract emits: `BankMsg::Send`. -/
inductive BankMsg where
  | Send (to_address : String) (amount : List Coin)
  deriving Repr, DecidableEq

/-- `cosmwasm_std::Response`, restricted to the parts this contract uses:
the list of outbound messages and the list of attributes. -/
structure Response where
  messages : List BankMsg
  attributes : List (String × String)
  deriving Repr, DecidableEq

deriving instance DecidableEq for Except

/-- `InstantiateMsg` from `msg.rs`. -/
structure InstantiateMsg where
  savings_rate : Nat
  deriving Repr, DecidableEq

/-- `instantiate` from `contract.rs`.  `addr_validate` of the fixed
well-formed `MAIN_ADDRESS` succeeds, so the function is total; it returns
the response together with the state record it saves. -/
def instantiate (info : MessageInfo) (msg : InstantiateMsg) :
    Response × State :=
  let state : State :=
    { owner := MAIN_ADDRESS
      amount_received := info.funds
      savings_rate := msg.savings_rate }
  ({ messages := []
     attributes := [("action", "instantiate"), ("rate", "15")] }, state)

/-- `execute_transfer` from `contract.rs`.  The storage argument models
`deps.storage`: `STATE.load` fails with a `Std` error when no record
exists and otherwise discards the loaded value.  The raw `u128`
multiplication is modelled with an explicit wrap modulo `2 ^ 128`. -/
def execute_transfer (storage : Option State) (info : MessageInfo)
    (received_funds : Coin) (savings_rate : Nat) :
    Except ContractError Response :=
  match storage with
  | none => .error (.Std "automatic_savings::state::State not found")
  | some _ =>
    if savings_rate > 100 || savings_rate == 0 then
      .error .InvalidSavingsRate
    else if info.sender ≠ MAIN_ADDRESS then
      .error .Unauthorized
    else if received_funds.amount ≤ 0 then
      .error .EmptyTransfer
    else
      let saved := 100 - savings_rate
      let send_amount := saved * received_funds.amount % 2 ^ 128 / 100
      let send := [Coin.mk received_funds.denom send_amount]
      .ok { messages := [.Send MAIN_ADDRESS send]
            attributes := [("action", "transfer")] }

/-- `execute_flush` from `contract.rs`.  `balance` is the result of the
external `query_all_balances` collaborator. -/
def execute_flush (storage : Option State) (info : MessageInfo)
    (balance : List Coin) : Except ContractError Response :=
  match storage with
  | none => .error (.Std "automatic_savings::state::State not found")
  | some _ =>
    if info.sender ≠ MAIN_ADDRESS then
      .error .Unauthorized
    else if balance.isEmpty then
      .error .EmptyBalance
    else
      .ok { messages := [.Send MAIN_ADDRESS balance]
            attributes := [("action", "flush")] }

/-- Storage-threading view of `execute_transfer`: the function body
contains no `STATE.save`, so the storage after the call is the storage
before it, on success and on failure alike. -/
def transferTransition (storage : Option State) (info : MessageInfo)
    (received_funds : Coin) (savings_rate : Nat) :
    Except ContractError Response × Option State :=
  (execute_transfer storage info received_funds savings_rate, storage)

/-- Storage-threading view of `execute_flush`: no `STATE.save` occurs, so
the storage passes through unchanged. -/
def flushTransition (storage : Option State) (info : MessageInfo)
    (balance : List Coin) : Except ContractError Response × Option State :=
  (execute_flush storage info balance, storage)

/-- A concrete configuration record, as the test `try_instantiate` builds it. -/
def st₀ : State :=
  { owner := MAIN_ADDRESS, amount_received := [⟨"BTC", 2⟩], savings_rate := 15 }

/-- Message info for the designated owner with no attached funds. -/
def ownerInfo : MessageInfo := { sender := MAIN_ADDRESS, funds := [] }

/-- Message info for a non-owner caller, as in the tests. -/
def anyoneInfo : MessageInfo := { sender := "anyone", funds := [] }

/-- C1, counterexample: at `received_funds.amount = 2 ^ 127` and rate `1`,
the `u128` product `99 * 2 ^ 127` wraps modulo `2 ^ 128`, so the owner-initiated
Transfer succeeds but emits `2 ^ 127 / 100`, which is not
`floor((100 - 1) * 2 ^ 127 / 100)`. -/
theorem C1_counterexample :
    execute_transfer (some st₀) ownerInfo ⟨"UST", 2 ^ 127⟩ 1 =
      .ok { messages := [.Send MAIN_ADDRESS [⟨"UST", 2 ^ 127 / 100⟩]]
            attributes := [("action", "transfer")] } ∧
    2 ^ 127 / 100 ≠ (100 - 1) * 2 ^ 127 / 100 := by
  constructor
  · decide
  · decide

/-- C1 (amended): for every Transfer invoked by the designated owner with
`savings_rate = r ∈ [1, 100]` and `received_funds.amount = A > 0` such that
the `u128` product `(100 - r) * A` does not overflow, the operation succeeds
and emits exactly one outbound transfer instruction of amount
`floor((100 - r) * A / 100)` (truncating unsigned division), in the same
denomination, addressed to the designated owner; a floor of `0` is still
emitted. -/
theorem C1_split_arithmetic (st : State) (funds : List Coin)
    (received_funds : Coin) (savings_rate : Nat)
    (h1 : 1 ≤ savings_rate) (h2 : savings_rate ≤ 100)
    (h3 : 0 < received_funds.amount) (h4 : received_funds.amount < 2 ^ 128)
    (h5 : (100 - savings_rate) * received_funds.amount < 2 ^ 128) :
    execute_transfer (some st) ⟨MAIN_ADDRESS, funds⟩ received_funds
        savings_rate =
      .ok { messages := [.Send MAIN_ADDRESS
              [⟨received_funds.denom,
                (100 - savings_rate) * received_funds.amount / 100⟩]]
            attributes := [("action", "transfer")] } := by
  simp only [execute_transfer]
  rw [if_neg (by simp; omega), if_neg (by simp), if_neg (by omega),
    Nat.mod_eq_of_lt h5]

/-- C1, witness: the spec example `A = 8500`, `denom = "UST"`, `r = 15`
yields `7225 "UST"`, and `A = 1`, `r = 50` still emits a zero-amount
instruction. -/
theorem C1_witness :
    execute_transfer (some st₀) ⟨MAIN_ADDRESS, []⟩ ⟨"UST", 8500⟩ 15 =
      .ok { messages := [.Send MAIN_ADDRESS [⟨"UST", 7225⟩]]
            attributes := [("action", "transfer")] } ∧
    execute_transfer (some st₀) ⟨MAIN_ADDRESS, []⟩ ⟨"BTC", 1⟩ 50 =
      .ok { messages := [.Send MAIN_ADDRESS [⟨"BTC", 0⟩]]
            attributes := [("action", "transfer")] } :=
  ⟨C1_split_arithmetic st₀ [] ⟨"UST", 8500⟩ 15 (by decide) (by decide)
      (by decide) (by norm_num) (by norm_num),
    C1_split_arithmetic st₀ [] ⟨"BTC", 1⟩ 50 (by decide) (by decide)
      (by decide) (by norm_num) (by norm_num)⟩

/-- C2, counterexample: a non-owner caller passing `savings_rate = 0`
receives `InvalidSavingsRate`, not `Unauthorized` — the rate check runs
before the owner check. -/
theorem C2_counterexample :
    execute_transfer (some st₀) anyoneInfo ⟨"BTC", 1⟩ 0 =
      .error .InvalidSavingsRate ∧
    ContractError.InvalidSavingsRate ≠ ContractError.Unauthorized := by
  decide

/-- C2 (amended): for every caller different from the designated owner,
Flush always fails with `Unauthorized` regardless of arguments; Transfer
fails with `Unauthorized` whenever the per-call `savings_rate ∈ [1, 100]`
(including a zero amount), while for an out-of-range rate it fails with
`InvalidSavingsRate` instead; in every case the call fails, and the
persisted record is unchanged, so no transfer instruction is produced. -/
theorem C2_unauthorized (st : State) (info : MessageInfo)
    (h : info.sender ≠ MAIN_ADDRESS) :
    (∀ balance, execute_flush (some st) info balance = .error .Unauthorized) ∧
    (∀ received_funds savings_rate, 1 ≤ savings_rate → savings_rate ≤ 100 →
      execute_transfer (some st) info received_funds savings_rate =
        .error .Unauthorized) ∧
    (∀ received_funds savings_rate, ∃ e,
      execute_transfer (some st) info received_funds savings_rate =
        .error e) ∧
    (∀ received_funds savings_rate,
      (transferTransition (some st) info received_funds savings_rate).2 =
        some st) ∧
    (∀ balance, (flushTransition (some st) info balance).2 = some st) := by
  refine ⟨?_, ?_, ?_, fun _ _ => rfl, fun _ => rfl⟩
  · intro balance
    simp only [execute_flush]
    rw [if_pos h]
  · intro received_funds savings_rate h1 h2
    simp only [execute_transfer]
    rw [if_neg (by simp; omega), if_pos h]
  · intro received_funds savings_rate
    by_cases hr : (savings_rate > 100 || savings_rate == 0) = true
    · exact ⟨.InvalidSavingsRate, by simp only [execute_transfer]; rw [if_pos hr]⟩
    · exact ⟨.Unauthorized, by simp only [execute_transfer]; rw [if_neg hr, if_pos h]⟩

/-- C2, witness: the caller `"anyone"` gets `Unauthorized` from Flush and
from Transfer with a valid rate. -/
theorem C2_witness :
    execute_flush (some st₀) anyoneInfo [⟨"ETH", 2000⟩] =
      .error .Unauthorized ∧
    execute_transfer (some st₀) anyoneInfo ⟨"BTC", 1⟩ 15 =
      .error .Unauthorized :=
  ⟨(C2_unauthorized st₀ anyoneInfo (by decide)).1 [⟨"ETH", 2000⟩],
    (C2_unauthorized st₀ anyoneInfo (by decide)).2.1 ⟨"BTC", 1⟩ 15
      (by decide) (by decide)⟩

/-- C3: Transfer evaluates its preconditions in the fixed order
rate-validity, then caller-equals-owner, then positive amount; when
several are violated the error is that of the first violated check. -/
theorem C3_check_order (st : State) (info : MessageInfo)
    (received_funds : Coin) (savings_rate : Nat) :
    ((savings_rate = 0 ∨ 100 < savings_rate) →
      execute_transfer (some st) info received_funds savings_rate =
        .error .InvalidSavingsRate) ∧
    (1 ≤ savings_rate → savings_rate ≤ 100 → info.sender ≠ MAIN_ADDRESS →
      execute_transfer (some st) info received_funds savings_rate =
        .error .Unauthorized) ∧
    (1 ≤ savings_rate → savings_rate ≤ 100 → info.sender = MAIN_ADDRESS →
      received_funds.amount = 0 →
      execute_transfer (some st) info received_funds savings_rate =
        .error .EmptyTransfer) := by
  refine ⟨?_, ?_, ?_⟩
  · intro h
    simp only [execute_transfer]
    rw [if_pos (by simp; omega)]
  · intro h1 h2 hs
    simp only [execute_transfer]
    rw [if_neg (by simp; omega), if_pos hs]
  · intro h1 h2 hs h0
    simp only [execute_transfer]
    rw [if_neg (by simp; omega), if_neg (by simp [hs]), if_pos (by omega)]

/-- C3, witness: a non-owner with rate `0` gets `InvalidSavingsRate`; a
non-owner with a valid rate gets `Unauthorized`; the owner with a valid
rate but a zero amount gets `EmptyTransfer`. -/
theorem C3_witness :
    execute_transfer (some st₀) anyoneInfo ⟨"BTC", 1⟩ 0 =
      .error .InvalidSavingsRate ∧
    execute_transfer (some st₀) anyoneInfo ⟨"BTC", 1⟩ 15 =
      .error .Unauthorized ∧
    execute_transfer (some st₀) ownerInfo ⟨"BTC", 0⟩ 15 =
      .error .EmptyTransfer :=
  ⟨(C3_check_order st₀ anyoneInfo ⟨"BTC", 1⟩ 0).1 (Or.inl rfl),
    (C3_check_order st₀ anyoneInfo ⟨"BTC", 1⟩ 15).2.1 (by decide) (by decide)
      (by decide),
    (C3_check_order st₀ ownerInfo ⟨"BTC", 0⟩ 15).2.2 (by decide) (by decide)
      rfl rfl⟩

/-- C4: for every `u8` rate equal to `0` or greater than `100`, Transfer
fails with `InvalidSavingsRate`, for every caller (the owner included) and
every `received_funds`. -/
theorem C4_invalid_rate (st : State) (info : MessageInfo)
    (received_funds : Coin) (savings_rate : Nat) (hu8 : savings_rate ≤ 255)
    (h : savings_rate = 0 ∨ 100 < savings_rate) :
    execute_transfer (some st) info received_funds savings_rate =
      .error .InvalidSavingsRate := by
  simp only [execute_transfer]
  rw [if_pos (by simp; omega)]

/-- C4, witness: the owner with positive funds and rate `101` gets
`InvalidSavingsRate`, as does rate `0`. -/
theorem C4_witness :
    execute_transfer (some st₀) ownerInfo ⟨"BTC", 2⟩ 101 =
      .error .InvalidSavingsRate ∧
    execute_transfer (some st₀) ownerInfo ⟨"BTC", 2⟩ 0 =
      .error .InvalidSavingsRate :=
  ⟨C4_invalid_rate st₀ ownerInfo ⟨"BTC", 2⟩ 101 (by decide)
      (Or.inr (by decide)),
    C4_invalid_rate st₀ ownerInfo ⟨"BTC", 2⟩ 0 (by decide) (Or.inl rfl)⟩

/-- C5: an owner-initiated Transfer with a valid rate and a zero amount
fails with `EmptyTransfer`, for every rate in `[1, 100]` and every
denomination. -/
theorem C5_empty_transfer (st : State) (funds : List Coin) (denom : String)
    (savings_rate : Nat) (h1 : 1 ≤ savings_rate) (h2 : savings_rate ≤ 100) :
    execute_transfer (some st) ⟨MAIN_ADDRESS, funds⟩ ⟨denom, 0⟩
        savings_rate = .error .EmptyTransfer := by
  simp only [execute_transfer]
  rw [if_neg (by simp; omega), if_neg (by simp), if_pos (by omega)]

/-- C5, witness: the owner sending `0 "BTC"` at rate `15` gets
`EmptyTransfer`. -/
theorem C5_witness :
    execute_transfer (some st₀) ⟨MAIN_ADDRESS, []⟩ ⟨"BTC", 0⟩ 15 =
      .error .EmptyTransfer :=
  C5_empty_transfer st₀ [] "BTC" 15 (by decide) (by decide)

/-- C6: an owner-initiated Flush fails with `EmptyBalance` when the
queried balance is empty, and otherwise emits exactly one transfer
instruction carrying the entire queried balance unchanged to the owner. -/
theorem C6_flush (st : State) (info : MessageInfo) (balance : List Coin)
    (h : info.sender = MAIN_ADDRESS) :
    (balance = [] → execute_flush (some st) info balance =
      .error .EmptyBalance) ∧
    (balance ≠ [] → execute_flush (some st) info balance =
      .ok { messages := [.Send MAIN_ADDRESS balance]
            attributes := [("action", "flush")] }) := by
  constructor
  · intro hb
    simp only [execute_flush]
    rw [if_neg (by simp [h]), if_pos (by simp [hb])]
  · intro hb
    simp only [execute_flush]
    rw [if_neg (by simp [h]), if_neg (by simp [hb])]

/-- C6, witness: the owner flushing an empty balance gets `EmptyBalance`;
flushing `2000 "ETH"` forwards it whole. -/
theorem C6_witness :
    execute_flush (some st₀) ownerInfo [] = .error .EmptyBalance ∧
    execute_flush (some st₀) ownerInfo [⟨"ETH", 2000⟩] =
      .ok { messages := [.Send MAIN_ADDRESS [⟨"ETH", 2000⟩]]
            attributes := [("action", "flush")] } :=
  ⟨(C6_flush st₀ ownerInfo [] rfl).1 rfl,
    (C6_flush st₀ ownerInfo [⟨"ETH", 2000⟩] rfl).2 (by simp)⟩

/-- C7: Initialize is total — it succeeds for every caller identity and
every `savings_rate` value, with no rate validation — and persists a
record whose `owner` is the hard-coded designated address (not the
caller), whose `savings_rate` is the supplied value, and whose
`amount_received` is the attached funds. -/
theorem C7_instantiate (info : MessageInfo) (msg : InstantiateMsg) :
    (instantiate info msg).2 =
      { owner := MAIN_ADDRESS
        amount_received := info.funds
        savings_rate := msg.savings_rate } := rfl

/-- C8: when Transfer or Flush fails, the persisted configuration record
after the call equals the record before it, and no `ok` response (hence no
transfer instruction) is produced. -/
theorem C8_no_side_effects_on_failure (storage : Option State)
    (info : MessageInfo) (received_funds : Coin) (savings_rate : Nat)
    (balance : List Coin) (e e' : ContractError) :
    (execute_transfer storage info received_funds savings_rate =
        .error e →
      (transferTransition storage info received_funds savings_rate).2 =
          storage ∧
      ∀ r, execute_transfer storage info received_funds savings_rate ≠
        .ok r) ∧
    (execute_flush storage info balance = .error e' →
      (flushTransition storage info balance).2 = storage ∧
      ∀ r, execute_flush storage info balance ≠ .ok r) := by
  constructor
  · intro he
    exact ⟨rfl, fun r hr => by rw [he] at hr; exact Except.noConfusion hr⟩
  · intro he
    exact ⟨rfl, fun r hr => by rw [he] at hr; exact Except.noConfusion hr⟩

/-- C8, witness: after an `Unauthorized` Transfer and an `Unauthorized`
Flush, storage is unchanged. -/
theorem C8_witness :
    (transferTransition (some st₀) anyoneInfo ⟨"BTC", 1⟩ 15).2 = some st₀ ∧
    (flushTransition (some st₀) anyoneInfo []).2 = some st₀ :=
  ⟨((C8_no_side_effects_on_failure (some st₀) anyoneInfo ⟨"BTC", 1⟩ 15 []
        .Unauthorized .Unauthorized).1 (by decide)).1,
    ((C8_no_side_effects_on_failure (some st₀) anyoneInfo ⟨"BTC", 1⟩ 15 []
        .Unauthorized .Unauthorized).2 (by decide)).1⟩

/-- C9: the result of Transfer does not depend on the stored record — for
any two existing configuration records (differing arbitrarily, in
particular in `savings_rate` and `amount_received`), the same caller,
funds, and per-call rate yield identical results. -/
theorem C9_transfer_independent_of_stored_state (st₁ st₂ : State)
    (info : MessageInfo) (received_funds : Coin) (savings_rate : Nat) :
    execute_transfer (some st₁) info received_funds savings_rate =
      execute_transfer (some st₂) info received_funds savings_rate := rfl

/-- C10: a successful Initialize emits, besides `action=instantiate`, the
attribute `rate` with the constant value `"15"`, regardless of the
`savings_rate` actually supplied and persisted. -/
theorem C10_rate_attribute_constant (info : MessageInfo)
    (msg : InstantiateMsg) :
    (instantiate info msg).1.attributes =
      [("action", "instantiate"), ("rate", "15")] := rfl
